import Mathlib

/-
Verification of the in-memory dashboard/lookup service of the influxdb
repository excerpt.  The Go source is shallowly embedded: the type-erased
`sync.Map` stores become association lists keyed by `Nat`-encoded IDs,
pointer mutation becomes explicit state passing on a `Service` record, and
Go's `error` results become `Option Err` / `Except Err`.  Functions whose
bodies are present in the excerpt (src/unnamed/part_000, src/errors.go) are
translated directly; collaborators whose bodies are absent from the excerpt
are modelled from the specification and marked as such in their doc
comments.
-/

set_option autoImplicit false

namespace Influx

/-! ## Error model (src/errors.go) -/

/-- Error code constants from src/errors.go. -/
def EInternal : String := "internal error"

/-- Code for an absent entity. -/
def ENotFound : String := "not found"

/-- Code for an action that cannot be performed. -/
def EConflict : String := "conflict"

/-- Code for failed validation. -/
def EInvalid : String := "invalid"

/-- Embedding of the platform `Error` struct (Code, Msg, Op, Err) from
src/errors.go.  A wrapped cause is either another platform error or an
error value of some other Go type (`otherErr`, carrying only its message). -/
inductive Err where
  | perr (code : String) (msg : String) (op : String) (cause : Option Err)
  | otherErr (msg : String)
deriving Repr

/-- Decidable equality for `Err`, written by hand because the nested
`Option Err` argument defeats the automatic deriving handler. -/
def Err.decEq : (a b : Err) → Decidable (a = b)
  | .otherErr m, .otherErr m' =>
    if h : m = m' then .isTrue (by rw [h])
    else .isFalse (by intro he; cases he; exact h rfl)
  | .perr c m o none, .perr c' m' o' none =>
    if h : c = c' ∧ m = m' ∧ o = o' then
      .isTrue (by obtain ⟨h1, h2, h3⟩ := h; rw [h1, h2, h3])
    else .isFalse (by intro he; cases he; exact h ⟨rfl, rfl, rfl⟩)
  | .perr c m o (some e), .perr c' m' o' (some e') =>
    match Err.decEq e e' with
    | .isTrue he =>
      if h : c = c' ∧ m = m' ∧ o = o' then
        .isTrue (by obtain ⟨h1, h2, h3⟩ := h; rw [h1, h2, h3, he])
      else .isFalse (by intro hx; cases hx; exact h ⟨rfl, rfl, rfl⟩)
    | .isFalse he => .isFalse (by intro hx; cases hx; exact he rfl)
  | .perr _ _ _ none, .perr _ _ _ (some _) =>
    .isFalse (by intro hx; injection hx with h1 h2 h3 h4; exact Option.noConfusion h4)
  | .perr _ _ _ (some _), .perr _ _ _ none =>
    .isFalse (by intro hx; injection hx with h1 h2 h3 h4; exact Option.noConfusion h4)
  | .perr _ _ _ _, .otherErr _ => .isFalse (fun hx => Err.noConfusion hx)
  | .otherErr _, .perr _ _ _ _ => .isFalse (fun hx => Err.noConfusion hx)

instance : DecidableEq Err := Err.decEq

/-- Embedding of `ErrorCode` (src/errors.go lines 85-108): the code of the
outermost platform error carrying one; a non-platform error yields
`EInternal`; so does a platform error with no code and no cause.  The Go
`err == nil` case is handled by callers matching on `Option Err`. -/
def ErrorCode : Err → String
  | .otherErr _ => EInternal
  | .perr c _ _ none => if c = "" then EInternal else c
  | .perr c _ _ (some e) => if c = "" then ErrorCode e else c

/-- Embedding of `ErrorMessage` (src/errors.go lines 138-161). -/
def ErrorMessage : Err → String
  | .otherErr _ => "An internal error has occurred."
  | .perr _ m _ none => if m = "" then "An internal error has occurred." else m
  | .perr _ m _ (some e) => if m = "" then ErrorMessage e else m

/-- Decidable equality for `Except`, needed to evaluate operation results
on concrete inputs. -/
def exceptDecEq {ε α : Type} [DecidableEq ε] [DecidableEq α] :
    (a b : Except ε α) → Decidable (a = b)
  | .error e, .error e' =>
    if h : e = e' then .isTrue (by rw [h])
    else .isFalse (by intro hx; cases hx; exact h rfl)
  | .ok a, .ok a' =>
    if h : a = a' then .isTrue (by rw [h])
    else .isFalse (by intro hx; cases hx; exact h rfl)
  | .error _, .ok _ => .isFalse (fun hx => Except.noConfusion hx)
  | .ok _, .error _ => .isFalse (fun hx => Except.noConfusion hx)

instance {ε α : Type} [DecidableEq ε] [DecidableEq α] : DecidableEq (Except ε α) :=
  exceptDecEq

/-! ## Identifiers and the keyed entity map -/

/-- Embedding of `platform.ID.Valid`: the zero value is the distinguished
invalid ID (spec section 3). -/
def IDValid (i : Nat) : Bool := i != 0

/-- Load from an association-list map: first entry with the given key.
Models `sync.Map.Load` on a map keyed by `id.String()` (IDs embed
injectively into their string encodings, so we key by the ID itself). -/
def kvLoad {α : Type} : List (Nat × α) → Nat → Option α
  | [], _ => none
  | (k', v) :: rest, k => if k' = k then some v else kvLoad rest k

/-- Store into an association-list map: replace the entry for the key in
place, or append a new entry.  Models `sync.Map.Store`. -/
def kvStore {α : Type} : List (Nat × α) → Nat → α → List (Nat × α)
  | [], k, v => [(k, v)]
  | (k', v') :: rest, k, v =>
    if k' = k then (k, v) :: rest else (k', v') :: kvStore rest k v

/-- Delete from an association-list map.  Models `sync.Map.Delete`. -/
def kvDelete {α : Type} : List (Nat × α) → Nat → List (Nat × α)
  | [], _ => []
  | (k', v') :: rest, k =>
    if k' = k then kvDelete rest k else (k', v') :: kvDelete rest k

/-! ## Data model -/

/-- Embedding of `platform.Cell`: an ID, the bound view's ID, and layout
fields (spec section 3: "position/layout fields"). -/
structure Cell where
  id : Nat
  viewID : Nat
  x : Nat
  y : Nat
  w : Nat
  h : Nat
deriving Repr, DecidableEq

/-- Embedding of `platform.View`, reduced to its identifier; the claims
under verification only track view existence and identity. -/
structure View where
  id : Nat
deriving Repr, DecidableEq

/-- Embedding of `platform.DashboardMeta` with timestamps as `Nat`. -/
structure Meta where
  createdAt : Nat
  updatedAt : Nat
deriving Repr, DecidableEq

/-- Embedding of `platform.Dashboard`. -/
structure Dashboard where
  id : Nat
  name : String
  description : String
  cells : List Cell
  meta : Meta
deriving Repr, DecidableEq

/-- A value held by the type-erased dashboard map: either an actual
dashboard or a value of some other type (`notDash` carries the name that
`%T` would print), mirroring the defensive type assertion in
`loadDashboard`. -/
inductive DashVal where
  | dash (d : Dashboard)
  | notDash (tyName : String)
deriving Repr, DecidableEq

/-! ## Service state -/

/-- Embedding of the inmem `Service` state touched by the verified
operations: the type-erased dashboard map, the view map, the name maps
consulted by `Name` for kinds whose stores are outside the excerpt, the ID
generator (a counter: the spec assumes it infallible, valid and unique),
the clock value returned by `s.time()`, and the outcome of the external
label-deletion collaborator (modelled from the spec as a configured
result). -/
structure Service where
  dashboardKV : List (Nat × DashVal)
  viewKV : List (Nat × View)
  bucketNames : List (Nat × String)
  orgNames : List (Nat × String)
  userNames : List (Nat × String)
  telegrafNames : List (Nat × String)
  nextID : Nat
  now : Nat
  labelDeletionError : Option Err
deriving Repr, DecidableEq

/-- Embedding of `s.IDGenerator.ID()`: yields the next counter value. -/
def genID (s : Service) : Nat × Service :=
  (s.nextID, { s with nextID := s.nextID + 1 })

/-- Operation-name prefix of the inmem package (`OpPrefix`; renamed because
of a lexical restriction of this development's toolchain). -/
def OpPfx : String := "inmem/"

/-- Operation name constants used in error wrapping. -/
def OpFindDashboardByID : String := "FindDashboardByID"

/-- Operation name for FindDashboards. -/
def OpFindDashboards : String := "FindDashboards"

/-- Operation name for CreateDashboard. -/
def OpCreateDashboard : String := "CreateDashboard"

/-- Operation name for UpdateDashboard. -/
def OpUpdateDashboard : String := "UpdateDashboard"

/-- Operation name for DeleteDashboard. -/
def OpDeleteDashboard : String := "DeleteDashboard"

/-- Operation name for AddDashboardCell. -/
def OpAddDashboardCell : String := "AddDashboardCell"

/-- Operation name for RemoveDashboardCell. -/
def OpRemoveDashboardCell : String := "RemoveDashboardCell"

/-- Operation name for UpdateDashboardCell. -/
def OpUpdateDashboardCell : String := "UpdateDashboardCell"

/-- Operation name for ReplaceDashboardCells. -/
def OpReplaceDashboardCells : String := "ReplaceDashboardCells"

/-- Message constant `platform.ErrDashboardNotFound`. -/
def ErrDashboardNotFound : String := "dashboard not found"

/-- Message constant `platform.ErrCellNotFound`. -/
def ErrCellNotFound : String := "cell not found"

/-! ## Dashboard store operations (src/unnamed/part_000) -/

/-- Embedding of `Service.loadDashboard` (part_000 lines 11-28): load the
raw map entry, report `ENotFound` when absent and `EInvalid` when the
stored value is not a dashboard. -/
def loadDashboard (s : Service) (id : Nat) : Except Err Dashboard :=
  match kvLoad s.dashboardKV id with
  | none => .error (.perr ENotFound ErrDashboardNotFound "" none)
  | some (.notDash t) =>
    .error (.perr EInvalid ("type " ++ t ++ " is not a dashboard") "" none)
  | some (.dash d) => .ok d

/-- Embedding of `Service.FindDashboardByID` (part_000 lines 31-40):
`loadDashboard` with failures wrapped under the operation label. -/
def FindDashboardByID (s : Service) (id : Nat) : Except Err Dashboard :=
  match loadDashboard s id with
  | .error pe => .error (.perr "" "" (OpPfx ++ OpFindDashboardByID) (some pe))
  | .ok d => .ok d

/-- Embedding of `platform.DashboardFilter`: an optional set of IDs. -/
structure DashboardFilter where
  ids : List Nat
deriving Repr, DecidableEq

/-- Embedding of `platform.FindOptions`, reduced to the sort selector. -/
structure FindOptions where
  sortBy : String
deriving Repr, DecidableEq

/-- Embedding of `filterDashboardFn` (part_000 lines 42-55): membership in
the filter's ID set when non-empty, otherwise accept everything. -/
def filterDashboardFn (filter : DashboardFilter) : Dashboard → Bool :=
  if filter.ids.length > 0 then
    fun d => filter.ids.contains d.id
  else
    fun _ => true

/-- Embedding of the `Range` loop of `FindDashboards` (part_000 lines
77-87): walk the map entries in order, stop (without error) at the first
non-dashboard value, collect the dashboards accepted by the filter. -/
def rangeDashboards (f : Dashboard → Bool) : List (Nat × DashVal) → List Dashboard
  | [] => []
  | (_, .notDash _) :: _ => []
  | (_, .dash d) :: rest =>
    (if f d then [d] else []) ++ rangeDashboards f rest

/-- Sort key selector for dashboards. Modelled from the spec:
`platform.SortDashboards` is absent from the excerpt; the spec says results
are "sorted by `options.SortBy` using a stable, caller-specified
comparator".  No claim under verification depends on the ordering. -/
def dashKey (sortBy : String) (d : Dashboard) : Nat :=
  if sortBy = "CreatedAt" then d.meta.createdAt
  else if sortBy = "UpdatedAt" then d.meta.updatedAt
  else d.id

/-- Stable insertion step for `SortDashboards`. -/
def insertDashboard (sortBy : String) (d : Dashboard) : List Dashboard → List Dashboard
  | [] => [d]
  | e :: rest =>
    if dashKey sortBy d < dashKey sortBy e then d :: e :: rest
    else e :: insertDashboard sortBy d rest

/-- Modelled from the spec: `platform.SortDashboards`, a stable sort by the
caller-selected field (body absent from the excerpt). -/
def SortDashboards (sortBy : String) : List Dashboard → List Dashboard
  | [] => []
  | d :: rest => insertDashboard sortBy d (SortDashboards sortBy rest)

/-- Embedding of `Service.FindDashboards` (part_000 lines 58-92): a
single-ID filter delegates to `FindDashboardByID`, treating `ENotFound` as
zero results and propagating (wrapped) any other error; otherwise the map
is scanned with the filter predicate and the results sorted. -/
def FindDashboards (s : Service) (filter : DashboardFilter) (opts : FindOptions) :
    Except Err (List Dashboard × Nat) :=
  match filter.ids with
  | [i] =>
    match FindDashboardByID s i with
    | .error e =>
      if ErrorCode e != ENotFound then
        .error (.perr "" "" (OpPfx ++ OpFindDashboards) (some e))
      else
        .ok ([], 0)
    | .ok d => .ok ([d], 1)
  | _ =>
    let ds := SortDashboards opts.sortBy (rangeDashboards (filterDashboardFn filter) s.dashboardKV)
    .ok (ds, ds.length)

/-- Embedding of `Service.PutDashboard` (part_000 lines 109-112):
unconditional store under the dashboard's own ID.  The Go function always
returns `nil`, so no error component is modelled. -/
def PutDashboard (s : Service) (o : Dashboard) : Service :=
  { s with dashboardKV := kvStore s.dashboardKV o.id (.dash o) }

/-- Embedding of `Service.PutDashboardWithMeta` (part_000 lines 115-118):
stamp `UpdatedAt` with the clock, then `PutDashboard`.  Returns the updated
dashboard as well, since Go mutates the shared record in place. -/
def PutDashboardWithMeta (s : Service) (d : Dashboard) : Service × Dashboard :=
  let d1 := { d with meta := { d.meta with updatedAt := s.now } }
  (PutDashboard s d1, d1)

/-- Embedding of `Service.CreateDashboard` (part_000 lines 95-106): assign
a fresh ID, stamp `CreatedAt`, persist with meta.  The only error source is
`PutDashboardWithMeta`, which cannot fail. -/
def CreateDashboard (s : Service) (d : Dashboard) : Service × Dashboard :=
  let (nid, s1) := genID s
  let d1 := { d with id := nid, meta := { d.meta with createdAt := s1.now } }
  PutDashboardWithMeta s1 d1

/-- Modelled from the spec: `platform.DashboardUpdate` (body absent from
the excerpt), a patch carrying optional new name and description. -/
structure DashboardUpdate where
  name : Option String
  description : Option String
deriving Repr, DecidableEq

/-- Modelled from the spec: `DashboardUpdate.Valid` fails with `EInvalid`
when the patch updates nothing ("fails with Invalid if the patch fails its
own validation"). -/
def DashboardUpdate.Valid (u : DashboardUpdate) : Option Err :=
  if u.name.isNone && u.description.isNone then
    some (.perr EInvalid "must update at least one attribute" "" none)
  else none

/-- Modelled from the spec: `DashboardUpdate.Apply` sets the provided
fields on the dashboard. -/
def DashboardUpdate.Apply (u : DashboardUpdate) (d : Dashboard) : Dashboard :=
  let d1 := match u.name with
    | some n => { d with name := n }
    | none => d
  match u.description with
  | some de => { d1 with description := de }
  | none => d1

/-- Embedding of `Service.UpdateDashboard` (part_000 lines 121-153):
validate the patch, look up the dashboard, apply the patch, persist with
meta; every failure is wrapped under the operation label. -/
def UpdateDashboard (s : Service) (id : Nat) (upd : DashboardUpdate) :
    Service × Except Err Dashboard :=
  match upd.Valid with
  | some e => (s, .error (.perr "" "" (OpPfx ++ OpUpdateDashboard) (some e)))
  | none =>
    match FindDashboardByID s id with
    | .error e => (s, .error (.perr "" "" (OpPfx ++ OpUpdateDashboard) (some e)))
    | .ok d =>
      let d1 := upd.Apply d
      let (s1, d2) := PutDashboardWithMeta s d1
      (s1, .ok d2)

/-- Modelled from the spec: the external label-association deletion
collaborator called by `DeleteDashboard` (`deleteLabel`; body absent from
the excerpt).  Its outcome is the one configured in the service state. -/
def deleteLabel (s : Service) : Option Err := s.labelDeletionError

/-- Embedding of `Service.DeleteDashboard` (part_000 lines 156-173): fail
if the dashboard is absent; otherwise delete it from the map and then run
label deletion, surfacing a label-deletion failure without restoring the
dashboard. -/
def DeleteDashboard (s : Service) (id : Nat) : Service × Option Err :=
  match FindDashboardByID s id with
  | .error e => (s, some (.perr "" "" (OpPfx ++ OpDeleteDashboard) (some e)))
  | .ok _ =>
    let s1 := { s with dashboardKV := kvDelete s.dashboardKV id }
    match deleteLabel s1 with
    | some e => (s1, some (.perr "" "" (OpPfx ++ OpDeleteDashboard) (some e)))
    | none => (s1, none)

/-- Embedding of `platform.AddDashboardCellOptions`, reduced to whether the
options ask for an existing view to be reused. -/
structure AddDashboardCellOptions where
  useExistingView : Bool
deriving Repr, DecidableEq

/-- Modelled from the spec: `Service.createViewIfNotExists` (body absent
from the excerpt).  Per the spec, `AddCell` "creates a backing view
(idempotently — if the options indicate an existing view should be reused,
does not recreate it)" and "this view-creation step must fail atomically
with the whole operation if it errors".  Reuse requires the cell's view to
exist; otherwise a fresh view is created from the ID generator and bound to
the cell. -/
def createViewIfNotExists (s : Service) (cell : Cell)
    (opts : AddDashboardCellOptions) : Except Err (Service × Cell) :=
  if opts.useExistingView then
    match kvLoad s.viewKV cell.viewID with
    | some _ => .ok (s, cell)
    | none => .error (.perr ENotFound "view not found" "" none)
  else
    let (vid, s1) := genID s
    .ok ({ s1 with viewKV := kvStore s1.viewKV vid ⟨vid⟩ },
         { cell with viewID := vid })

/-- Embedding of `Service.AddDashboardCell` (part_000 lines 176-201): look
up the dashboard, assign the cell a fresh ID, create the backing view,
append the cell and persist with meta. -/
def AddDashboardCell (s : Service) (id : Nat) (cell : Cell)
    (opts : AddDashboardCellOptions) : Service × Option Err :=
  match FindDashboardByID s id with
  | .error e => (s, some (.perr "" "" (OpPfx ++ OpAddDashboardCell) (some e)))
  | .ok d =>
    let (cid, s1) := genID s
    let cell1 := { cell with id := cid }
    match createViewIfNotExists s1 cell1 opts with
    | .error e => (s1, some (.perr "" "" (OpPfx ++ OpAddDashboardCell) (some e)))
    | .ok (s2, cell2) =>
      let d1 := { d with cells := d.cells ++ [cell2] }
      ((PutDashboardWithMeta s2 d1).1, none)

/-- Modelled from the spec: the view store's `PutView` (body absent from
the excerpt), an unconditional overwrite keyed by the view's ID; it never
fails. -/
def PutView (s : Service) (v : View) : Service :=
  { s with viewKV := kvStore s.viewKV v.id v }

/-- Embedding of `Service.PutDashboardCell` (part_000 lines 204-217): look
up the dashboard (error returned unwrapped), store a view keyed by the
cell's `ViewID`, append the cell and persist via plain `PutDashboard`
(no `UpdatedAt` refresh). -/
def PutDashboardCell (s : Service) (id : Nat) (cell : Cell) : Service × Option Err :=
  match FindDashboardByID s id with
  | .error e => (s, some e)
  | .ok d =>
    let s1 := PutView s ⟨cell.viewID⟩
    let d1 := { d with cells := d.cells ++ [cell] }
    (PutDashboard s1 d1, none)

/-- Modelled from the spec: the view store's `DeleteView` (body absent from
the excerpt).  Per the spec, `RemoveCell` "deletes the cell's backing view
(failure here aborts the whole removal)": deletion fails with `ENotFound`
when the view is absent and otherwise removes it. -/
def DeleteView (s : Service) (id : Nat) : Service × Option Err :=
  match kvLoad s.viewKV id with
  | none => (s, some (.perr ENotFound "view not found" "" none))
  | some _ => ({ s with viewKV := kvDelete s.viewKV id }, none)

/-- Embedding of the index-search loop shared by `RemoveDashboardCell` and
`UpdateDashboardCell` (part_000 lines 230-236 and 271-277): the index and
value of the first cell carrying the ID, if any. -/
def findCellWithIdx : List Cell → Nat → Option (Nat × Cell)
  | [], _ => none
  | c :: rest, cid =>
    if c.id = cid then some (0, c)
    else (findCellWithIdx rest cid).map (fun p => (p.1 + 1, p.2))

/-- Embedding of `Service.RemoveDashboardCell` (part_000 lines 220-252):
look up the dashboard, find the cell (`ENotFound` if absent), delete its
backing view (a failure there is returned unwrapped and aborts the
removal), drop the cell preserving the order of the rest, persist with
meta. -/
def RemoveDashboardCell (s : Service) (dashboardID cellID : Nat) : Service × Option Err :=
  match FindDashboardByID s dashboardID with
  | .error e => (s, some (.perr "" "" (OpPfx ++ OpRemoveDashboardCell) (some e)))
  | .ok d =>
    match findCellWithIdx d.cells cellID with
    | none =>
      (s, some (.perr ENotFound ErrCellNotFound (OpPfx ++ OpRemoveDashboardCell) none))
    | some (idx, c) =>
      match DeleteView s c.viewID with
      | (_, some e) => (s, some e)
      | (s1, none) =>
        let d1 := { d with cells := d.cells.eraseIdx idx }
        ((PutDashboardWithMeta s1 d1).1, none)

/-- Modelled from the spec: `platform.CellUpdate` (body absent from the
excerpt), a patch over the cell's layout fields. -/
structure CellUpdate where
  x : Option Nat
  y : Option Nat
  w : Option Nat
  h : Option Nat
deriving Repr, DecidableEq

/-- Modelled from the spec: `CellUpdate.Valid` fails with `EInvalid` when
the patch updates nothing. -/
def CellUpdate.Valid (u : CellUpdate) : Option Err :=
  if u.x.isNone && u.y.isNone && u.w.isNone && u.h.isNone then
    some (.perr EInvalid "must update at least one attribute" "" none)
  else none

/-- Modelled from the spec: `CellUpdate.Apply` sets the provided layout
fields on the cell. -/
def CellUpdate.Apply (u : CellUpdate) (c : Cell) : Cell :=
  let c1 := match u.x with | some v => { c with x := v } | none => c
  let c2 := match u.y with | some v => { c1 with y := v } | none => c1
  let c3 := match u.w with | some v => { c2 with w := v } | none => c2
  match u.h with | some v => { c3 with h := v } | none => c3

/-- Embedding of `Service.UpdateDashboardCell` (part_000 lines 255-303):
validate the patch, look up the dashboard, find the cell (`ENotFound` if
absent), apply the patch in place, persist with meta, return the updated
cell. -/
def UpdateDashboardCell (s : Service) (dashboardID cellID : Nat) (upd : CellUpdate) :
    Service × Except Err Cell :=
  match upd.Valid with
  | some e => (s, .error (.perr "" "" (OpPfx ++ OpUpdateDashboardCell) (some e)))
  | none =>
    match FindDashboardByID s dashboardID with
    | .error e => (s, .error (.perr "" "" (OpPfx ++ OpUpdateDashboardCell) (some e)))
    | .ok d =>
      match findCellWithIdx d.cells cellID with
      | none =>
        (s, .error (.perr ENotFound ErrCellNotFound (OpPfx ++ OpUpdateDashboardCell) none))
      | some (idx, c) =>
        let c1 := upd.Apply c
        let d1 := { d with cells := d.cells.set idx c1 }
        ((PutDashboardWithMeta s d1).1, .ok c1)

/-- Embedding of the `ids` map construction of `ReplaceDashboardCells`
(part_000 lines 316-319): a map from cell ID to cell, later entries
overwriting earlier ones, exactly as repeated `Store` calls would. -/
def buildCellIds (cells : List Cell) : List (Nat × Cell) :=
  List.foldl (fun m c => kvStore m c.id c) [] cells

/-- Embedding of the validation loop of `ReplaceDashboardCells` (part_000
lines 321-346): the first offending proposed cell determines the error —
`EInvalid` for an invalid ID, `EConflict` for an ID not already present,
`EInvalid` for a changed view binding. -/
def validateReplaceCells (ids : List (Nat × Cell)) (op : String) : List Cell → Option Err
  | [] => none
  | cell :: rest =>
    if !(IDValid cell.id) then
      some (.perr EInvalid "cannot provide empty cell id" op none)
    else
      match kvLoad ids cell.id with
      | none =>
        some (.perr EConflict "cannot replace cells that were not already present" op none)
      | some cl =>
        if cl.viewID != cell.viewID then
          some (.perr EInvalid "cannot update view id in replace" op none)
        else validateReplaceCells ids op rest

/-- Embedding of `Service.ReplaceDashboardCells` (part_000 lines 306-351):
look up the dashboard, validate every proposed cell against the map of
currently attached cells, and only then replace the cell list wholesale and
persist with meta. -/
def ReplaceDashboardCells (s : Service) (id : Nat) (cs : List Cell) : Service × Option Err :=
  match FindDashboardByID s id with
  | .error e => (s, some (.perr "" "" (OpPfx ++ OpReplaceDashboardCells) (some e)))
  | .ok d =>
    match validateReplaceCells (buildCellIds d.cells) (OpPfx ++ OpReplaceDashboardCells) cs with
    | some e => (s, some e)
    | none =>
      let d1 := { d with cells := cs }
      ((PutDashboardWithMeta s d1).1, none)

/-! ## Name resolution (spec section 4.2; implementation absent from the
excerpt, exercised by src/inmem/lookup_service_test.go) -/

/-- Resource kind constant for authorizations. -/
def AuthorizationsResource : String := "authorizations"

/-- Resource kind constant for buckets. -/
def BucketsResource : String := "buckets"

/-- Resource kind constant for dashboards. -/
def DashboardsResource : String := "dashboards"

/-- Resource kind constant for organizations. -/
def OrgsResource : String := "orgs"

/-- Resource kind constant for sources. -/
def SourcesResource : String := "sources"

/-- Resource kind constant for tasks. -/
def TasksResource : String := "tasks"

/-- Resource kind constant for telegraf configurations. -/
def TelegrafsResource : String := "telegrafs"

/-- Resource kind constant for users. -/
def UsersResource : String := "users"

/-- The recognized resource kinds of this excerpt. -/
def recognizedResources : List String :=
  [AuthorizationsResource, BucketsResource, DashboardsResource, OrgsResource,
   SourcesResource, TasksResource, TelegrafsResource, UsersResource]

/-- Modelled from the spec: `Service.Name` (body absent from the excerpt;
behaviour fixed by spec section 4.2 and src/inmem/lookup_service_test.go).
It fails with `EInvalid` for an invalid id or an unrecognized kind; returns
`""` without consulting any store for kinds whose entities carry no name
(authorizations, tasks, sources); and otherwise loads the entity from the
kind's store, failing with `ENotFound` when absent and returning its name
when present.  Dashboards resolve through the dashboard store embedded
above; the other named kinds resolve through their id-to-name maps. -/
def Name (s : Service) (resource : String) (id : Nat) : Except Err String :=
  if !(IDValid id) then
    .error (.perr EInvalid "id provided is invalid" "" none)
  else if resource = AuthorizationsResource ∨ resource = TasksResource ∨
      resource = SourcesResource then
    .ok ""
  else if resource = BucketsResource then
    match kvLoad s.bucketNames id with
    | none => .error (.perr ENotFound "bucket not found" "" none)
    | some n => .ok n
  else if resource = DashboardsResource then
    match FindDashboardByID s id with
    | .error e => .error e
    | .ok d => .ok d.name
  else if resource = OrgsResource then
    match kvLoad s.orgNames id with
    | none => .error (.perr ENotFound "organization not found" "" none)
    | some n => .ok n
  else if resource = TelegrafsResource then
    match kvLoad s.telegrafNames id with
    | none => .error (.perr ENotFound "telegraf configuration not found" "" none)
    | some n => .ok n
  else if resource = UsersResource then
    match kvLoad s.userNames id with
    | none => .error (.perr ENotFound "user not found" "" none)
    | some n => .ok n
  else
    .error (.perr EInvalid "unknown resource" "" none)

/-! ## Derived predicates used to state the claims -/

/-- A proposed cell passes the `ReplaceDashboardCells` validation against a
given currently-attached-cells map: its ID is valid, present in the map,
and its view binding is unchanged. -/
def cellAcceptedBy (ids : List (Nat × Cell)) (c : Cell) : Bool :=
  IDValid c.id &&
    (match kvLoad ids c.id with
     | none => false
     | some cl => cl.viewID == c.viewID)

/-- A proposed cell passes the `ReplaceDashboardCells` validation against a
dashboard's current cell list. -/
def replaceCellAccepted (old : List Cell) (c : Cell) : Bool :=
  cellAcceptedBy (buildCellIds old) c

/-- Wrap an error in a stack of operation-labelled platform errors, each
setting only `Op` and `Err` (the wrapping pattern used throughout
part_000). -/
def wrapOps (ops : List String) (e : Err) : Err :=
  List.foldr (fun o acc => .perr "" "" o (some acc)) e ops

/-! ## Concrete sample states used by the evaluation witnesses -/

/-- Sample cell A, attached to the sample dashboard. -/
def sampleCellA : Cell := ⟨1, 11, 0, 0, 1, 1⟩

/-- Sample cell B, attached to the sample dashboard. -/
def sampleCellB : Cell := ⟨2, 12, 0, 0, 1, 1⟩

/-- Sample dashboard with two cells. -/
def sampleDash : Dashboard := ⟨5, "dash1", "", [sampleCellA, sampleCellB], ⟨10, 20⟩⟩

/-- Sample service state holding the sample dashboard, its two backing
views, and one bucket name. -/
def sampleSvc : Service :=
  { dashboardKV := [(5, DashVal.dash sampleDash)]
    viewKV := [(11, ⟨11⟩), (12, ⟨12⟩)]
    bucketNames := [(1, "b1")]
    orgNames := []
    userNames := []
    telegrafNames := []
    nextID := 100
    now := 777
    labelDeletionError := none }

example : loadDashboard sampleSvc 5 = .ok sampleDash := by decide
example : (ReplaceDashboardCells sampleSvc 5 [⟨1, 11, 4, 4, 4, 4⟩, ⟨3, 13, 0, 0, 1, 1⟩]).1 = sampleSvc := by decide
example : (ReplaceDashboardCells sampleSvc 5 [⟨1, 11, 4, 4, 4, 4⟩, ⟨3, 13, 0, 0, 1, 1⟩]).2 =
    some (.perr EConflict "cannot replace cells that were not already present" (OpPfx ++ OpReplaceDashboardCells) none) := by decide
example : (ReplaceDashboardCells sampleSvc 5 [⟨2, 12, 9, 9, 9, 9⟩, ⟨1, 11, 0, 0, 1, 1⟩]).2 = none := by decide
example : loadDashboard (ReplaceDashboardCells sampleSvc 5 [⟨2, 12, 9, 9, 9, 9⟩, ⟨1, 11, 0, 0, 1, 1⟩]).1 5 =
    .ok { sampleDash with cells := [⟨2, 12, 9, 9, 9, 9⟩, ⟨1, 11, 0, 0, 1, 1⟩], meta := ⟨10, 777⟩ } := by decide
example : (ReplaceDashboardCells sampleSvc 5 [⟨0, 11, 0, 0, 1, 1⟩]).2 =
    some (.perr EInvalid "cannot provide empty cell id" (OpPfx ++ OpReplaceDashboardCells) none) := by decide
example : (ReplaceDashboardCells sampleSvc 5 [⟨1, 99, 0, 0, 1, 1⟩]).2 =
    some (.perr EInvalid "cannot update view id in replace" (OpPfx ++ OpReplaceDashboardCells) none) := by decide
example : (AddDashboardCell sampleSvc 5 ⟨0, 0, 2, 2, 2, 2⟩ ⟨false⟩).2 = none := by decide
example : loadDashboard (AddDashboardCell sampleSvc 5 ⟨0, 0, 2, 2, 2, 2⟩ ⟨false⟩).1 5 =
    .ok { sampleDash with cells := [sampleCellA, sampleCellB, ⟨100, 101, 2, 2, 2, 2⟩], meta := ⟨10, 777⟩ } := by decide
example : (RemoveDashboardCell (AddDashboardCell sampleSvc 5 ⟨0, 0, 2, 2, 2, 2⟩ ⟨false⟩).1 5 100).2 = none := by decide
example : loadDashboard (RemoveDashboardCell (AddDashboardCell sampleSvc 5 ⟨0, 0, 2, 2, 2, 2⟩ ⟨false⟩).1 5 100).1 5 =
    .ok { sampleDash with cells := [sampleCellA, sampleCellB], meta := ⟨10, 777⟩ } := by decide
example : kvLoad (RemoveDashboardCell (AddDashboardCell sampleSvc 5 ⟨0, 0, 2, 2, 2, 2⟩ ⟨false⟩).1 5 100).1.viewKV 101 = none := by decide
example : FindDashboards sampleSvc ⟨[9]⟩ ⟨""⟩ = .ok ([], 0) := by decide
example : FindDashboards sampleSvc ⟨[5]⟩ ⟨""⟩ = .ok ([sampleDash], 1) := by decide
example : Name sampleSvc TasksResource 3 = .ok "" := by decide
example : Name sampleSvc BucketsResource 1 = .ok "b1" := by decide
example : Name sampleSvc DashboardsResource 5 = .ok "dash1" := by decide
example : (DeleteDashboard sampleSvc 5).2 = none := by decide
example : kvLoad (DeleteDashboard sampleSvc 5).1.dashboardKV 5 = none := by decide
example : (PutDashboardCell sampleSvc 5 ⟨7, 70, 0, 0, 1, 1⟩).2 = none := by decide
example : loadDashboard (PutDashboardCell sampleSvc 5 ⟨7, 70, 0, 0, 1, 1⟩).1 5 =
    .ok { sampleDash with cells := [sampleCellA, sampleCellB, ⟨7, 70, 0, 0, 1, 1⟩] } := by decide
example : kvLoad (PutDashboardCell sampleSvc 5 ⟨7, 70, 0, 0, 1, 1⟩).1.viewKV 70 = some ⟨70⟩ := by decide
example : (UpdateDashboard sampleSvc 9 ⟨none, none⟩).2 =
    .error (.perr "" "" (OpPfx ++ OpUpdateDashboard) (some (.perr EInvalid "must update at least one attribute" "" none))) := by decide

/-! ## Helper lemmas -/

theorem kvLoad_kvStore_self {α : Type} (m : List (Nat × α)) (k : Nat) (v : α) :
    kvLoad (kvStore m k v) k = some v := by
  induction m with
  | nil => simp [kvStore, kvLoad]
  | cons hd tl ih =>
    obtain ⟨k', v'⟩ := hd
    by_cases h : k' = k
    · simp [kvStore, h, kvLoad]
    · simp [kvStore, h, kvLoad, ih]

theorem kvLoad_kvStore_ne {α : Type} (m : List (Nat × α)) (k k' : Nat) (v : α)
    (h : k' ≠ k) : kvLoad (kvStore m k v) k' = kvLoad m k' := by
  have hne : k ≠ k' := fun he => h he.symm
  induction m with
  | nil => simp [kvStore, kvLoad, hne]
  | cons hd tl ih =>
    obtain ⟨k0, v0⟩ := hd
    by_cases h0 : k0 = k
    · subst h0
      simp [kvStore, kvLoad, hne]
    · simp [kvStore, h0, kvLoad, ih]

theorem kvLoad_kvDelete_self {α : Type} (m : List (Nat × α)) (k : Nat) :
    kvLoad (kvDelete m k) k = none := by
  induction m with
  | nil => simp [kvDelete, kvLoad]
  | cons hd tl ih =>
    obtain ⟨k', v'⟩ := hd
    by_cases h : k' = k
    · simp [kvDelete, h, ih]
    · simp [kvDelete, h, kvLoad, ih]

theorem loadDashboard_of_none {s : Service} {id : Nat}
    (h : kvLoad s.dashboardKV id = none) :
    loadDashboard s id = .error (.perr ENotFound ErrDashboardNotFound "" none) := by
  unfold loadDashboard
  rw [h]

theorem loadDashboard_of_dash {s : Service} {id : Nat} {d : Dashboard}
    (h : kvLoad s.dashboardKV id = some (.dash d)) :
    loadDashboard s id = .ok d := by
  unfold loadDashboard
  rw [h]

theorem loadDashboard_of_notDash {s : Service} {id : Nat} {t : String}
    (h : kvLoad s.dashboardKV id = some (.notDash t)) :
    loadDashboard s id =
      .error (.perr EInvalid ("type " ++ t ++ " is not a dashboard") "" none) := by
  unfold loadDashboard
  rw [h]

theorem FindDashboardByID_of_ok {s : Service} {id : Nat} {d : Dashboard}
    (h : loadDashboard s id = .ok d) : FindDashboardByID s id = .ok d := by
  unfold FindDashboardByID
  rw [h]

theorem FindDashboardByID_of_error {s : Service} {id : Nat} {e : Err}
    (h : loadDashboard s id = .error e) :
    FindDashboardByID s id =
      .error (.perr "" "" (OpPfx ++ OpFindDashboardByID) (some e)) := by
  unfold FindDashboardByID
  rw [h]

theorem ErrorCode_wrap (op : String) (e : Err) :
    ErrorCode (.perr "" "" op (some e)) = ErrorCode e := by
  simp [ErrorCode]

theorem loadDashboard_PutDashboard {s : Service} (o : Dashboard) :
    loadDashboard (PutDashboard s o) o.id = .ok o := by
  unfold loadDashboard PutDashboard
  simp [kvLoad_kvStore_self]

theorem validateReplaceCells_eq_none_iff (ids : List (Nat × Cell)) (op : String)
    (cs : List Cell) :
    validateReplaceCells ids op cs = none ↔ ∀ c ∈ cs, cellAcceptedBy ids c = true := by
  induction cs with
  | nil => simp [validateReplaceCells]
  | cons c rest ih =>
    unfold validateReplaceCells
    by_cases hid : IDValid c.id
    · cases hkv : kvLoad ids c.id with
      | none => simp [hid, hkv, cellAcceptedBy]
      | some cl =>
        by_cases hv : cl.viewID = c.viewID
        · simp [hid, hkv, hv, cellAcceptedBy, ih]
        · simp [hid, hkv, hv, cellAcceptedBy]
    · simp only [Bool.not_eq_true] at hid
      simp [hid, cellAcceptedBy]

theorem validateReplaceCells_cons_accepted (ids : List (Nat × Cell)) (op : String)
    (c : Cell) (rest : List Cell) (h : cellAcceptedBy ids c = true) :
    validateReplaceCells ids op (c :: rest) = validateReplaceCells ids op rest := by
  simp only [cellAcceptedBy, Bool.and_eq_true] at h
  obtain ⟨hid, hrest⟩ := h
  cases hkv : kvLoad ids c.id with
  | none => rw [hkv] at hrest; simp at hrest
  | some cl =>
    rw [hkv] at hrest
    have hv : cl.viewID = c.viewID := by simpa using hrest
    conv_lhs => unfold validateReplaceCells
    simp [hid, hkv, hv]

theorem validateReplaceCells_append (ids : List (Nat × Cell)) (op : String)
    (pre rest : List Cell) (h : ∀ c ∈ pre, cellAcceptedBy ids c = true) :
    validateReplaceCells ids op (pre ++ rest) = validateReplaceCells ids op rest := by
  induction pre with
  | nil => rfl
  | cons c pres ih =>
    have ihr := ih (fun c' hc' => h c' (by simp [hc']))
    rw [List.cons_append, validateReplaceCells_cons_accepted ids op c (pres ++ rest)
      (h c (by simp)), ihr]

theorem findCellWithIdx_append_fresh (cells : List Cell) (c2 : Cell) (cid : Nat)
    (h : ∀ c ∈ cells, c.id ≠ cid) (hc : c2.id = cid) :
    findCellWithIdx (cells ++ [c2]) cid = some (cells.length, c2) := by
  induction cells with
  | nil => simp [findCellWithIdx, hc]
  | cons c rest ih =>
    have hne : c.id ≠ cid := h c (by simp)
    have ihr := ih (fun c' hc' => h c' (by simp [hc']))
    simp [findCellWithIdx, hne, ihr]

theorem eraseIdx_append_singleton {α : Type} (l : List α) (a : α) :
    (l ++ [a]).eraseIdx l.length = l := by
  induction l with
  | nil => rfl
  | cons x xs ih => simp [List.eraseIdx, ih]

theorem createViewIfNotExists_now {s s2 : Service} {c c2 : Cell}
    {opts : AddDashboardCellOptions}
    (h : createViewIfNotExists s c opts = .ok (s2, c2)) :
    s2.now = s.now := by
  unfold createViewIfNotExists at h
  by_cases ho : opts.useExistingView
  · rw [if_pos ho] at h
    cases hkv : kvLoad s.viewKV c.viewID with
    | none => rw [hkv] at h; exact Except.noConfusion h
    | some v =>
      rw [hkv] at h
      injection h with h1
      injection h1 with h2 h3
      rw [← h2]
  · rw [if_neg ho] at h
    unfold genID at h
    injection h with h1
    injection h1 with h2 h3
    rw [← h2]

theorem ErrorCode_code {c m o : String} {rest : Option Err} (hc : c ≠ "") :
    ErrorCode (.perr c m o rest) = c := by
  cases rest <;> simp [ErrorCode, hc]

theorem FindDashboards_single (s : Service) (i : Nat) (opts : FindOptions) :
    FindDashboards s ⟨[i]⟩ opts =
      (match FindDashboardByID s i with
       | .error e =>
         if ErrorCode e != ENotFound then
           .error (.perr "" "" (OpPfx ++ OpFindDashboards) (some e))
         else .ok ([], 0)
       | .ok d => .ok ([d], 1)) := rfl

theorem ReplaceDashboardCells_of_ok {s : Service} {id : Nat} {d : Dashboard}
    (h : FindDashboardByID s id = .ok d) (cs : List Cell) :
    ReplaceDashboardCells s id cs =
      (match validateReplaceCells (buildCellIds d.cells)
          (OpPfx ++ OpReplaceDashboardCells) cs with
       | some e => (s, some e)
       | none =>
         (PutDashboard s { d with cells := cs, meta := { d.meta with updatedAt := s.now } },
          none)) := by
  unfold ReplaceDashboardCells
  rw [h]
  simp [PutDashboardWithMeta]

theorem ReplaceDashboardCells_of_error {s : Service} {id : Nat} {e : Err}
    (h : FindDashboardByID s id = .error e) (cs : List Cell) :
    ReplaceDashboardCells s id cs =
      (s, some (.perr "" "" (OpPfx ++ OpReplaceDashboardCells) (some e))) := by
  unfold ReplaceDashboardCells
  rw [h]

theorem AddDashboardCell_of_ok {s : Service} {id : Nat} {d : Dashboard}
    (h : FindDashboardByID s id = .ok d) (cell : Cell) (opts : AddDashboardCellOptions) :
    AddDashboardCell s id cell opts =
      (match createViewIfNotExists { s with nextID := s.nextID + 1 }
          { cell with id := s.nextID } opts with
       | .error e =>
         ({ s with nextID := s.nextID + 1 },
          some (.perr "" "" (OpPfx ++ OpAddDashboardCell) (some e)))
       | .ok (s2, cell2) =>
         (PutDashboard s2 { d with cells := d.cells ++ [cell2], meta := { d.meta with updatedAt := s2.now } },
          none)) := by
  unfold AddDashboardCell
  rw [h]
  simp [genID, PutDashboardWithMeta]

theorem RemoveDashboardCell_of_ok {s : Service} {id : Nat} {d : Dashboard}
    (h : FindDashboardByID s id = .ok d) (cid : Nat) :
    RemoveDashboardCell s id cid =
      (match findCellWithIdx d.cells cid with
       | none =>
         (s, some (.perr ENotFound ErrCellNotFound (OpPfx ++ OpRemoveDashboardCell) none))
       | some (idx, c) =>
         match DeleteView s c.viewID with
         | (_, some e) => (s, some e)
         | (s1, none) =>
           (PutDashboard s1 { d with cells := d.cells.eraseIdx idx, meta := { d.meta with updatedAt := s1.now } },
            none)) := by
  unfold RemoveDashboardCell
  rw [h]
  simp [PutDashboardWithMeta]

theorem UpdateDashboardCell_of_ok {s : Service} {did : Nat} {d : Dashboard}
    (h : FindDashboardByID s did = .ok d) (cid : Nat) (upd : CellUpdate)
    (hv : upd.Valid = none) :
    UpdateDashboardCell s did cid upd =
      (match findCellWithIdx d.cells cid with
       | none =>
         (s, .error (.perr ENotFound ErrCellNotFound (OpPfx ++ OpUpdateDashboardCell) none))
       | some (idx, c) =>
         (PutDashboard s { d with cells := d.cells.set idx (upd.Apply c), meta := { d.meta with updatedAt := s.now } },
          .ok (upd.Apply c))) := by
  unfold UpdateDashboardCell
  rw [hv, h]
  simp [PutDashboardWithMeta]

theorem PutDashboardCell_of_ok {s : Service} {id : Nat} {d : Dashboard}
    (h : FindDashboardByID s id = .ok d) (cell : Cell) :
    PutDashboardCell s id cell =
      (PutDashboard (PutView s ⟨cell.viewID⟩) { d with cells := d.cells ++ [cell] },
       none) := by
  unfold PutDashboardCell
  rw [h]

theorem DeleteDashboard_of_ok {s : Service} {id : Nat} {d : Dashboard}
    (h : FindDashboardByID s id = .ok d) :
    DeleteDashboard s id =
      (match s.labelDeletionError with
       | some e =>
         ({ s with dashboardKV := kvDelete s.dashboardKV id },
          some (.perr "" "" (OpPfx ++ OpDeleteDashboard) (some e)))
       | none => ({ s with dashboardKV := kvDelete s.dashboardKV id }, none)) := by
  unfold DeleteDashboard
  rw [h]
  simp [deleteLabel]

theorem DeleteDashboard_of_error {s : Service} {id : Nat} {e : Err}
    (h : FindDashboardByID s id = .error e) :
    DeleteDashboard s id =
      (s, some (.perr "" "" (OpPfx ++ OpDeleteDashboard) (some e))) := by
  unfold DeleteDashboard
  rw [h]

/-! ## Claim theorems -/

/-- C10: `UpdateDashboard` and `UpdateDashboardCell` validate the patch
before the existence lookup: whenever the patch fails its own validation,
the call returns that validation error (wrapped under the operation label)
for every store state — even when the target dashboard or cell does not
exist — and the store is left exactly as it was. -/
theorem updates_validate_before_lookup (s : Service) (id cid : Nat)
    (du : DashboardUpdate) (cu : CellUpdate) :
    (∀ e, du.Valid = some e →
      UpdateDashboard s id du =
        (s, .error (.perr "" "" (OpPfx ++ OpUpdateDashboard) (some e)))) ∧
    (∀ e, cu.Valid = some e →
      UpdateDashboardCell s id cid cu =
        (s, .error (.perr "" "" (OpPfx ++ OpUpdateDashboardCell) (some e)))) := by
  constructor
  · intro e he
    unfold UpdateDashboard
    rw [he]
  · intro e he
    unfold UpdateDashboardCell
    rw [he]

/-- Witness for C10: the empty patch fails validation, and updating the
absent dashboard 9 of the sample store returns exactly that error with the
state untouched. -/
theorem updates_validate_before_lookup_witness :
    UpdateDashboard sampleSvc 9 ⟨none, none⟩ =
      (sampleSvc, .error (.perr "" "" (OpPfx ++ OpUpdateDashboard)
        (some (.perr EInvalid "must update at least one attribute" "" none)))) :=
  (updates_validate_before_lookup sampleSvc 9 9 ⟨none, none⟩
    ⟨none, none, none, none⟩).1 _ (by decide)

/-- C8: for every chain of platform errors whose wrappers set only `Op` and
`Err` (code empty), `ErrorCode` returns the code of the innermost error
carrying one: wrapping preserves the root code, a non-empty code is
returned as is, and a non-platform leaf yields `EInternal`.  In particular
the single-ID path of `FindDashboards` recognizes the wrapped `ENotFound`
coming out of `FindDashboardByID` and reports zero results. -/
theorem errorcode_chain_preserved :
    (∀ (ops : List String) (e : Err), ErrorCode (wrapOps ops e) = ErrorCode e) ∧
    (∀ (c m o : String) (rest : Option Err), c ≠ "" →
      ErrorCode (.perr c m o rest) = c) ∧
    (∀ m : String, ErrorCode (.otherErr m) = EInternal) ∧
    (∀ (s : Service) (i : Nat) (opts : FindOptions), kvLoad s.dashboardKV i = none →
      FindDashboards s ⟨[i]⟩ opts = .ok ([], 0)) := by
  refine ⟨?_, ?_, ?_, ?_⟩
  · intro ops e
    induction ops with
    | nil => rfl
    | cons o os ih =>
      show ErrorCode (.perr "" "" o (some (wrapOps os e))) = ErrorCode e
      rw [ErrorCode_wrap, ih]
  · intro c m o rest hc
    cases rest <;> simp [ErrorCode, hc]
  · intro m
    rfl
  · intro s i opts h
    have hf := FindDashboardByID_of_error (loadDashboard_of_none h)
    rw [FindDashboards_single, hf]
    simp only []
    rw [ErrorCode_wrap, ErrorCode_code (by decide)]
    simp

/-- Witness for C8: a doubly-wrapped `ENotFound` still reports `ENotFound`,
and looking up the absent dashboard 9 via the single-ID filter yields zero
results without an error. -/
theorem errorcode_chain_preserved_witness :
    ErrorCode (wrapOps ["opA", "opB"] (.perr ENotFound "x" "" none)) = ENotFound ∧
    FindDashboards sampleSvc ⟨[9]⟩ ⟨""⟩ = .ok ([], 0) := by
  have h := errorcode_chain_preserved
  constructor
  · rw [h.1 ["opA", "opB"] _, h.2.1 ENotFound "x" "" none (by decide)]
  · exact h.2.2.2 sampleSvc 9 ⟨""⟩ (by decide)

/-- C5: `FindDashboards` with a single-element ID filter delegates to
`FindDashboardByID`: an unknown ID yields an empty sequence with count 0
and no error, a present dashboard yields a one-element sequence with count
1, and any error other than `ENotFound` — such as the `EInvalid` raised for
a non-dashboard value in the map — is propagated to the caller. -/
theorem find_dashboards_single_id (s : Service) (i : Nat) (opts : FindOptions) :
    (kvLoad s.dashboardKV i = none → FindDashboards s ⟨[i]⟩ opts = .ok ([], 0)) ∧
    (∀ d, kvLoad s.dashboardKV i = some (.dash d) →
      FindDashboards s ⟨[i]⟩ opts = .ok ([d], 1)) ∧
    (∀ t, kvLoad s.dashboardKV i = some (.notDash t) →
      ∃ e, FindDashboards s ⟨[i]⟩ opts = .error e ∧ ErrorCode e = EInvalid) := by
  refine ⟨?_, ?_, ?_⟩
  · intro h
    have hf := FindDashboardByID_of_error (loadDashboard_of_none h)
    rw [FindDashboards_single, hf]
    simp only []
    rw [ErrorCode_wrap, ErrorCode_code (by decide)]
    simp
  · intro d h
    have hf := FindDashboardByID_of_ok (loadDashboard_of_dash h)
    rw [FindDashboards_single, hf]
  · intro t h
    have hf := FindDashboardByID_of_error (loadDashboard_of_notDash h)
    refine ⟨.perr "" "" (OpPfx ++ OpFindDashboards)
      (some (.perr "" "" (OpPfx ++ OpFindDashboardByID)
        (some (.perr EInvalid ("type " ++ t ++ " is not a dashboard") "" none)))), ?_, ?_⟩
    · rw [FindDashboards_single, hf]
      simp only []
      rw [ErrorCode_wrap, ErrorCode_code (by decide)]
      simp [EInvalid, ENotFound]
    · rw [ErrorCode_wrap, ErrorCode_wrap, ErrorCode_code (by decide)]

/-- Witness for C5: on the sample store, an unknown single ID yields zero
results, the present dashboard 5 yields itself, and a corrupted map entry
propagates an `EInvalid` error. -/
theorem find_dashboards_single_id_witness :
    FindDashboards sampleSvc ⟨[9]⟩ ⟨""⟩ = .ok ([], 0) ∧
    FindDashboards sampleSvc ⟨[5]⟩ ⟨""⟩ = .ok ([sampleDash], 1) ∧
    ∃ e, FindDashboards { sampleSvc with dashboardKV := [(5, .notDash "int")] }
      ⟨[5]⟩ ⟨""⟩ = .error e ∧ ErrorCode e = EInvalid := by
  refine ⟨(find_dashboards_single_id sampleSvc 9 ⟨""⟩).1 (by decide),
    (find_dashboards_single_id sampleSvc 5 ⟨""⟩).2.1 sampleDash (by decide),
    (find_dashboards_single_id { sampleSvc with dashboardKV := [(5, .notDash "int")] }
      5 ⟨""⟩).2.2 "int" (by decide)⟩

/-- C9: `ReplaceDashboardCells` never touches the view store — on every
outcome the view map is exactly the input view map, so no view is created
or deleted and the backing views of omitted cells remain stored (becoming
orphaned) — and a successful call replaces the dashboard's cell list
wholesale by the proposed list, dropping the omitted cells. -/
theorem replace_cells_view_frame (s : Service) (id : Nat) (cs : List Cell) :
    (ReplaceDashboardCells s id cs).1.viewKV = s.viewKV ∧
    (∀ d, loadDashboard s id = .ok d → d.id = id →
      (ReplaceDashboardCells s id cs).2 = none →
      ∃ d', loadDashboard (ReplaceDashboardCells s id cs).1 id = .ok d' ∧
        d'.cells = cs) := by
  constructor
  · cases hf : FindDashboardByID s id with
    | error e => rw [ReplaceDashboardCells_of_error hf]
    | ok d =>
      rw [ReplaceDashboardCells_of_ok hf]
      cases hv : validateReplaceCells (buildCellIds d.cells)
          (OpPfx ++ OpReplaceDashboardCells) cs with
      | some e => rfl
      | none => rfl
  · intro d hload hid hok
    have hf := FindDashboardByID_of_ok hload
    cases hv : validateReplaceCells (buildCellIds d.cells)
        (OpPfx ++ OpReplaceDashboardCells) cs with
    | some e =>
      rw [ReplaceDashboardCells_of_ok hf, hv] at hok
      exact Option.noConfusion hok
    | none =>
      rw [ReplaceDashboardCells_of_ok hf, hv]
      refine ⟨{ d with cells := cs, meta := { d.meta with updatedAt := s.now } }, ?_, rfl⟩
      have hput := loadDashboard_PutDashboard
        (s := s) { d with cells := cs, meta := { d.meta with updatedAt := s.now } }
      simpa [hid] using hput

/-- Witness for C9: replacing the sample dashboard's cells by just cell B
leaves both stored views in place (cell A's view 11 is orphaned) and the
dashboard holds exactly the proposed list. -/
theorem replace_cells_view_frame_witness :
    (ReplaceDashboardCells sampleSvc 5 [sampleCellB]).1.viewKV = sampleSvc.viewKV ∧
    ∃ d', loadDashboard (ReplaceDashboardCells sampleSvc 5 [sampleCellB]).1 5 = .ok d' ∧
      d'.cells = [sampleCellB] := by
  have h := replace_cells_view_frame sampleSvc 5 [sampleCellB]
  exact ⟨h.1, h.2 sampleDash (by decide) (by decide) (by decide)⟩

/-- C1: `ReplaceDashboardCells` is atomic in the validate-then-commit
sense — when any proposed cell is rejected (invalid ID, ID not among the
dashboard's current cells, or changed view binding) the call errors and the
whole service state, hence the dashboard's cell sequence, its `Meta` and
the view store, is unchanged; when every proposed cell passes validation
the dashboard's cells are replaced wholesale by the proposed list and the
dashboard is persisted with `UpdatedAt` refreshed to the clock, the view
store untouched. -/
theorem replace_cells_atomic (s : Service) (id : Nat) (cs : List Cell) (d : Dashboard)
    (hload : loadDashboard s id = .ok d) (hid : d.id = id) :
    (¬ (∀ c ∈ cs, replaceCellAccepted d.cells c = true) →
      (ReplaceDashboardCells s id cs).2.isSome = true ∧
      (ReplaceDashboardCells s id cs).1 = s) ∧
    ((∀ c ∈ cs, replaceCellAccepted d.cells c = true) →
      (ReplaceDashboardCells s id cs).2 = none ∧
      loadDashboard (ReplaceDashboardCells s id cs).1 id =
        .ok { d with cells := cs, meta := { d.meta with updatedAt := s.now } } ∧
      (ReplaceDashboardCells s id cs).1.viewKV = s.viewKV) := by
  have hf := FindDashboardByID_of_ok hload
  have hiff := validateReplaceCells_eq_none_iff (buildCellIds d.cells)
    (OpPfx ++ OpReplaceDashboardCells) cs
  constructor
  · intro hbad
    cases hv : validateReplaceCells (buildCellIds d.cells)
        (OpPfx ++ OpReplaceDashboardCells) cs with
    | none => exact absurd (hiff.mp hv) hbad
    | some e =>
      rw [ReplaceDashboardCells_of_ok hf, hv]
      exact ⟨rfl, rfl⟩
  · intro hall
    have hv : validateReplaceCells (buildCellIds d.cells)
        (OpPfx ++ OpReplaceDashboardCells) cs = none := hiff.mpr hall
    rw [ReplaceDashboardCells_of_ok hf, hv]
    refine ⟨rfl, ?_, rfl⟩
    have hput := loadDashboard_PutDashboard
      (s := s) { d with cells := cs, meta := { d.meta with updatedAt := s.now } }
    simpa [hid] using hput

/-- Witness for C1: proposing an unknown cell ID leaves the sample state
untouched and errors, while a fully valid proposal (reordered and edited
existing cells) commits the wholesale replacement with a refreshed
`UpdatedAt`. -/
theorem replace_cells_atomic_witness :
    ((ReplaceDashboardCells sampleSvc 5 [⟨1, 11, 4, 4, 4, 4⟩, ⟨3, 13, 0, 0, 1, 1⟩]).2.isSome = true ∧
     (ReplaceDashboardCells sampleSvc 5 [⟨1, 11, 4, 4, 4, 4⟩, ⟨3, 13, 0, 0, 1, 1⟩]).1 = sampleSvc) ∧
    ((ReplaceDashboardCells sampleSvc 5 [⟨2, 12, 9, 9, 9, 9⟩, ⟨1, 11, 0, 0, 1, 1⟩]).2 = none ∧
     loadDashboard (ReplaceDashboardCells sampleSvc 5 [⟨2, 12, 9, 9, 9, 9⟩, ⟨1, 11, 0, 0, 1, 1⟩]).1 5 =
       .ok { sampleDash with cells := [⟨2, 12, 9, 9, 9, 9⟩, ⟨1, 11, 0, 0, 1, 1⟩], meta := { sampleDash.meta with updatedAt := sampleSvc.now } } ∧
     (ReplaceDashboardCells sampleSvc 5 [⟨2, 12, 9, 9, 9, 9⟩, ⟨1, 11, 0, 0, 1, 1⟩]).1.viewKV = sampleSvc.viewKV) := by
  constructor
  · exact (replace_cells_atomic sampleSvc 5 [⟨1, 11, 4, 4, 4, 4⟩, ⟨3, 13, 0, 0, 1, 1⟩]
      sampleDash (by decide) (by decide)).1 (by decide)
  · exact (replace_cells_atomic sampleSvc 5 [⟨2, 12, 9, 9, 9, 9⟩, ⟨1, 11, 0, 0, 1, 1⟩]
      sampleDash (by decide) (by decide)).2 (by decide)

/-- C2: the first offending cell of a `ReplaceDashboardCells` proposal
determines the failure — an invalid (zero) ID fails with `EInvalid` and
"cannot provide empty cell id"; an ID not among the currently attached
cells fails with `EConflict` and "cannot replace cells that were not
already present"; a changed `ViewID` on a present cell fails with
`EInvalid` and "cannot update view id in replace". -/
theorem replace_cells_error_codes (s : Service) (id : Nat) (d : Dashboard)
    (pre post : List Cell) (c : Cell)
    (hload : loadDashboard s id = .ok d)
    (hpre : ∀ c' ∈ pre, replaceCellAccepted d.cells c' = true) :
    (IDValid c.id = false →
      (ReplaceDashboardCells s id (pre ++ c :: post)).2 =
        some (.perr EInvalid "cannot provide empty cell id"
          (OpPfx ++ OpReplaceDashboardCells) none)) ∧
    (IDValid c.id = true → kvLoad (buildCellIds d.cells) c.id = none →
      (ReplaceDashboardCells s id (pre ++ c :: post)).2 =
        some (.perr EConflict "cannot replace cells that were not already present"
          (OpPfx ++ OpReplaceDashboardCells) none)) ∧
    (∀ cl, IDValid c.id = true → kvLoad (buildCellIds d.cells) c.id = some cl →
      cl.viewID ≠ c.viewID →
      (ReplaceDashboardCells s id (pre ++ c :: post)).2 =
        some (.perr EInvalid "cannot update view id in replace"
          (OpPfx ++ OpReplaceDashboardCells) none)) := by
  have hf := FindDashboardByID_of_ok hload
  have happ := validateReplaceCells_append (buildCellIds d.cells)
    (OpPfx ++ OpReplaceDashboardCells) pre (c :: post) hpre
  refine ⟨?_, ?_, ?_⟩
  · intro hinv
    have hv : validateReplaceCells (buildCellIds d.cells)
        (OpPfx ++ OpReplaceDashboardCells) (pre ++ c :: post) =
        some (.perr EInvalid "cannot provide empty cell id"
          (OpPfx ++ OpReplaceDashboardCells) none) := by
      rw [happ]
      conv_lhs => unfold validateReplaceCells
      simp [hinv]
    rw [ReplaceDashboardCells_of_ok hf, hv]
  · intro hval hnone
    have hv : validateReplaceCells (buildCellIds d.cells)
        (OpPfx ++ OpReplaceDashboardCells) (pre ++ c :: post) =
        some (.perr EConflict "cannot replace cells that were not already present"
          (OpPfx ++ OpReplaceDashboardCells) none) := by
      rw [happ]
      conv_lhs => unfold validateReplaceCells
      simp [hval, hnone]
    rw [ReplaceDashboardCells_of_ok hf, hv]
  · intro cl hval hsome hne
    have hv : validateReplaceCells (buildCellIds d.cells)
        (OpPfx ++ OpReplaceDashboardCells) (pre ++ c :: post) =
        some (.perr EInvalid "cannot update view id in replace"
          (OpPfx ++ OpReplaceDashboardCells) none) := by
      rw [happ]
      conv_lhs => unfold validateReplaceCells
      simp [hval, hsome, bne_iff_ne, hne]
    rw [ReplaceDashboardCells_of_ok hf, hv]

/-- Witness for C2: on the sample dashboard, a zero cell ID, an unknown
cell ID and a changed view binding produce exactly the three documented
code/message pairs. -/
theorem replace_cells_error_codes_witness :
    (ReplaceDashboardCells sampleSvc 5 [sampleCellA, ⟨0, 9, 0, 0, 1, 1⟩]).2 =
      some (.perr EInvalid "cannot provide empty cell id"
        (OpPfx ++ OpReplaceDashboardCells) none) ∧
    (ReplaceDashboardCells sampleSvc 5 [⟨3, 13, 0, 0, 1, 1⟩]).2 =
      some (.perr EConflict "cannot replace cells that were not already present"
        (OpPfx ++ OpReplaceDashboardCells) none) ∧
    (ReplaceDashboardCells sampleSvc 5 [⟨1, 99, 0, 0, 1, 1⟩]).2 =
      some (.perr EInvalid "cannot update view id in replace"
        (OpPfx ++ OpReplaceDashboardCells) none) := by
  refine ⟨?_, ?_, ?_⟩
  · exact (replace_cells_error_codes sampleSvc 5 sampleDash [sampleCellA] []
      ⟨0, 9, 0, 0, 1, 1⟩ (by decide) (by decide)).1 (by decide)
  · exact (replace_cells_error_codes sampleSvc 5 sampleDash [] []
      ⟨3, 13, 0, 0, 1, 1⟩ (by decide) (by decide)).2.1 (by decide) (by decide)
  · exact (replace_cells_error_codes sampleSvc 5 sampleDash [] []
      ⟨1, 99, 0, 0, 1, 1⟩ (by decide) (by decide)).2.2 sampleCellA
      (by decide) (by decide) (by decide)

/-- C3: adding a cell (with a freshly created backing view) and then
removing it by its assigned ID restores the dashboard's cell sequence to
its pre-add state, and the view created by the add is no longer present in
the view store.  The freshness hypothesis reflects the spec's assumption
that the ID generator yields unique values. -/
theorem add_remove_roundtrip (s : Service) (id : Nat) (c : Cell) (d : Dashboard)
    (hload : loadDashboard s id = .ok d) (hid : d.id = id)
    (hfresh : ∀ c' ∈ d.cells, c'.id ≠ s.nextID) :
    (AddDashboardCell s id c ⟨false⟩).2 = none ∧
    (RemoveDashboardCell (AddDashboardCell s id c ⟨false⟩).1 id s.nextID).2 = none ∧
    (∃ d2, loadDashboard
        (RemoveDashboardCell (AddDashboardCell s id c ⟨false⟩).1 id s.nextID).1 id =
        .ok d2 ∧ d2.cells = d.cells) ∧
    kvLoad (RemoveDashboardCell (AddDashboardCell s id c ⟨false⟩).1 id s.nextID).1.viewKV
      (s.nextID + 1) = none := by
  have hf := FindDashboardByID_of_ok hload
  have hadd : AddDashboardCell s id c ⟨false⟩ =
      (PutDashboard { s with nextID := s.nextID + 1 + 1, viewKV := kvStore s.viewKV (s.nextID + 1) ⟨s.nextID + 1⟩ } { d with cells := d.cells ++ [{ c with id := s.nextID, viewID := s.nextID + 1 }], meta := { d.meta with updatedAt := s.now } },
       none) := by
    rw [AddDashboardCell_of_ok hf c ⟨false⟩]
    rfl
  have hloadA : loadDashboard (AddDashboardCell s id c ⟨false⟩).1 id =
      .ok { d with cells := d.cells ++ [{ c with id := s.nextID, viewID := s.nextID + 1 }], meta := { d.meta with updatedAt := s.now } } := by
    rw [hadd]
    have hput := loadDashboard_PutDashboard
      (s := { s with nextID := s.nextID + 1 + 1, viewKV := kvStore s.viewKV (s.nextID + 1) ⟨s.nextID + 1⟩ })
      { d with cells := d.cells ++ [{ c with id := s.nextID, viewID := s.nextID + 1 }], meta := { d.meta with updatedAt := s.now } }
    simpa [hid] using hput
  have hfA := FindDashboardByID_of_ok hloadA
  have hkvv : kvLoad (AddDashboardCell s id c ⟨false⟩).1.viewKV (s.nextID + 1) =
      some ⟨s.nextID + 1⟩ := by
    rw [hadd]
    exact kvLoad_kvStore_self s.viewKV (s.nextID + 1) ⟨s.nextID + 1⟩
  have hfind : findCellWithIdx (d.cells ++ [{ c with id := s.nextID, viewID := s.nextID + 1 }]) s.nextID =
      some (d.cells.length, { c with id := s.nextID, viewID := s.nextID + 1 }) :=
    findCellWithIdx_append_fresh d.cells _ s.nextID hfresh rfl
  have hDV : DeleteView (AddDashboardCell s id c ⟨false⟩).1 (s.nextID + 1) =
      ({ (AddDashboardCell s id c ⟨false⟩).1 with viewKV := kvDelete (AddDashboardCell s id c ⟨false⟩).1.viewKV (s.nextID + 1) },
       none) := by
    unfold DeleteView
    rw [hkvv]
  have hR := RemoveDashboardCell_of_ok hfA s.nextID
  simp only [] at hR
  rw [hfind] at hR
  simp only [] at hR
  rw [hDV] at hR
  simp only [] at hR
  have hcells : (d.cells ++ [{ c with id := s.nextID, viewID := s.nextID + 1 }]).eraseIdx d.cells.length = d.cells :=
    eraseIdx_append_singleton d.cells _
  refine ⟨by rw [hadd], by rw [hR], ?_, ?_⟩
  · refine ⟨{ { d with cells := d.cells ++ [{ c with id := s.nextID, viewID := s.nextID + 1 }], meta := { d.meta with updatedAt := s.now } } with cells := (d.cells ++ [{ c with id := s.nextID, viewID := s.nextID + 1 }]).eraseIdx d.cells.length, meta := { { d.meta with updatedAt := s.now } with updatedAt := ({ (AddDashboardCell s id c ⟨false⟩).1 with viewKV := kvDelete (AddDashboardCell s id c ⟨false⟩).1.viewKV (s.nextID + 1) } : Service).now } },
      ?_, by simpa using hcells⟩
    rw [hR]
    have hput := loadDashboard_PutDashboard
      (s := { (AddDashboardCell s id c ⟨false⟩).1 with viewKV := kvDelete (AddDashboardCell s id c ⟨false⟩).1.viewKV (s.nextID + 1) })
      { { d with cells := d.cells ++ [{ c with id := s.nextID, viewID := s.nextID + 1 }], meta := { d.meta with updatedAt := s.now } } with cells := (d.cells ++ [{ c with id := s.nextID, viewID := s.nextID + 1 }]).eraseIdx d.cells.length, meta := { { d.meta with updatedAt := s.now } with updatedAt := ({ (AddDashboardCell s id c ⟨false⟩).1 with viewKV := kvDelete (AddDashboardCell s id c ⟨false⟩).1.viewKV (s.nextID + 1) } : Service).now } }
    simpa [hid] using hput
  · rw [hR]
    exact kvLoad_kvDelete_self _ _

/-- Witness for C3: on the sample store (fresh cell ID 100, fresh view ID
101), add-then-remove restores the two original cells and view 101 is
gone. -/
theorem add_remove_roundtrip_witness :
    (AddDashboardCell sampleSvc 5 ⟨0, 0, 2, 2, 2, 2⟩ ⟨false⟩).2 = none ∧
    (RemoveDashboardCell (AddDashboardCell sampleSvc 5 ⟨0, 0, 2, 2, 2, 2⟩ ⟨false⟩).1 5 sampleSvc.nextID).2 = none ∧
    (∃ d2, loadDashboard
        (RemoveDashboardCell (AddDashboardCell sampleSvc 5 ⟨0, 0, 2, 2, 2, 2⟩ ⟨false⟩).1 5 sampleSvc.nextID).1 5 =
        .ok d2 ∧ d2.cells = sampleDash.cells) ∧
    kvLoad (RemoveDashboardCell (AddDashboardCell sampleSvc 5 ⟨0, 0, 2, 2, 2, 2⟩ ⟨false⟩).1 5 sampleSvc.nextID).1.viewKV
      (sampleSvc.nextID + 1) = none :=
  add_remove_roundtrip sampleSvc 5 ⟨0, 0, 2, 2, 2, 2⟩ sampleDash (by decide) (by decide)
    (by decide)

/-- C6: `DeleteDashboard` removes the stored dashboard from the map before
running label deletion: on an existing dashboard the map entry is gone
afterwards (a subsequent `FindDashboardByID` reports `ENotFound`) whether
or not label deletion fails, a label-deletion failure is surfaced to the
caller wrapped under the operation label (no rollback), and on a
non-existent dashboard the call fails leaving the store untouched. -/
theorem delete_dashboard_no_rollback (s : Service) (id : Nat) :
    (∀ d, loadDashboard s id = .ok d →
      kvLoad (DeleteDashboard s id).1.dashboardKV id = none ∧
      (∃ e, FindDashboardByID (DeleteDashboard s id).1 id = .error e ∧
        ErrorCode e = ENotFound) ∧
      (∀ le, s.labelDeletionError = some le →
        (DeleteDashboard s id).2 =
          some (.perr "" "" (OpPfx ++ OpDeleteDashboard) (some le))) ∧
      (s.labelDeletionError = none → (DeleteDashboard s id).2 = none)) ∧
    (kvLoad s.dashboardKV id = none →
      (DeleteDashboard s id).1 = s ∧ (DeleteDashboard s id).2.isSome = true) := by
  constructor
  · intro d hload
    have hf := FindDashboardByID_of_ok hload
    have hdel := DeleteDashboard_of_ok hf
    have hstate : (DeleteDashboard s id).1 =
        { s with dashboardKV := kvDelete s.dashboardKV id } := by
      rw [hdel]
      cases s.labelDeletionError <;> rfl
    have hkv : kvLoad (DeleteDashboard s id).1.dashboardKV id = none := by
      rw [hstate]
      exact kvLoad_kvDelete_self _ _
    refine ⟨hkv, ?_, ?_, ?_⟩
    · refine ⟨.perr "" "" (OpPfx ++ OpFindDashboardByID)
        (some (.perr ENotFound ErrDashboardNotFound "" none)), ?_, ?_⟩
      · exact FindDashboardByID_of_error (loadDashboard_of_none hkv)
      · rw [ErrorCode_wrap]
        exact ErrorCode_code (by decide)
    · intro le hle
      rw [hdel, hle]
    · intro hle
      rw [hdel, hle]
  · intro hnone
    have hf := FindDashboardByID_of_error (loadDashboard_of_none hnone)
    rw [DeleteDashboard_of_error hf]
    exact ⟨rfl, rfl⟩

/-- Witness for C6: deleting the sample dashboard while the label
collaborator is configured to fail still removes the dashboard yet surfaces
the wrapped label error; deleting the absent dashboard 9 fails and leaves
the state untouched. -/
theorem delete_dashboard_no_rollback_witness :
    (kvLoad (DeleteDashboard { sampleSvc with labelDeletionError := some (.otherErr "boom") } 5).1.dashboardKV 5 = none ∧
     (DeleteDashboard { sampleSvc with labelDeletionError := some (.otherErr "boom") } 5).2 =
       some (.perr "" "" (OpPfx ++ OpDeleteDashboard) (some (.otherErr "boom")))) ∧
    ((DeleteDashboard sampleSvc 9).1 = sampleSvc ∧
     (DeleteDashboard sampleSvc 9).2.isSome = true) := by
  constructor
  · have h := (delete_dashboard_no_rollback
      { sampleSvc with labelDeletionError := some (.otherErr "boom") } 5).1
      sampleDash (by decide)
    exact ⟨h.1, h.2.2.1 _ (by decide)⟩
  · exact (delete_dashboard_no_rollback sampleSvc 9).2 (by decide)

/-- C7: `PutDashboardCell` appends the cell and stores a view keyed by the
cell's `ViewID` but persists via plain `PutDashboard`, leaving the
dashboard's `Meta` (in particular `UpdatedAt`) unchanged; by contrast every
successful `AddDashboardCell`, `RemoveDashboardCell`, `UpdateDashboardCell`
and `ReplaceDashboardCells` persists via `PutDashboardWithMeta`, setting
`UpdatedAt` to the current clock value. -/
theorem put_cell_meta_asymmetry (s : Service) (id : Nat) (cell : Cell) (d : Dashboard)
    (hload : loadDashboard s id = .ok d) (hid : d.id = id) :
    ((PutDashboardCell s id cell).2 = none ∧
     loadDashboard (PutDashboardCell s id cell).1 id =
       .ok { d with cells := d.cells ++ [cell] } ∧
     kvLoad (PutDashboardCell s id cell).1.viewKV cell.viewID = some ⟨cell.viewID⟩) ∧
    (∀ opts s', AddDashboardCell s id cell opts = (s', none) →
      ∃ d', loadDashboard s' id = .ok d' ∧ d'.meta.updatedAt = s.now) ∧
    (∀ cid s', RemoveDashboardCell s id cid = (s', none) →
      ∃ d', loadDashboard s' id = .ok d' ∧ d'.meta.updatedAt = s.now) ∧
    (∀ cid upd s' r, UpdateDashboardCell s id cid upd = (s', .ok r) →
      ∃ d', loadDashboard s' id = .ok d' ∧ d'.meta.updatedAt = s.now) ∧
    (∀ cs s', ReplaceDashboardCells s id cs = (s', none) →
      ∃ d', loadDashboard s' id = .ok d' ∧ d'.meta.updatedAt = s.now) := by
  have hf := FindDashboardByID_of_ok hload
  refine ⟨?_, ?_, ?_, ?_, ?_⟩
  · have hp := PutDashboardCell_of_ok hf cell
    refine ⟨by rw [hp], ?_, ?_⟩
    · rw [hp]
      have hput := loadDashboard_PutDashboard
        (s := PutView s ⟨cell.viewID⟩) { d with cells := d.cells ++ [cell] }
      simpa [hid] using hput
    · rw [hp]
      exact kvLoad_kvStore_self s.viewKV cell.viewID ⟨cell.viewID⟩
  · intro opts s' hadd
    rw [AddDashboardCell_of_ok hf cell opts] at hadd
    cases hcv : createViewIfNotExists { s with nextID := s.nextID + 1 }
        { cell with id := s.nextID } opts with
    | error e =>
      rw [hcv] at hadd
      simp [Prod.mk.injEq] at hadd
    | ok p =>
      obtain ⟨s2, cell2⟩ := p
      rw [hcv] at hadd
      simp only [Prod.mk.injEq] at hadd
      obtain ⟨hs', -⟩ := hadd
      have hnow : s2.now = s.now := by
        have h0 := createViewIfNotExists_now (s := { s with nextID := s.nextID + 1 }) hcv
        simpa using h0
      refine ⟨{ d with cells := d.cells ++ [cell2], meta := { d.meta with updatedAt := s2.now } },
        ?_, by simpa using hnow⟩
      rw [← hs']
      have hput := loadDashboard_PutDashboard
        (s := s2) { d with cells := d.cells ++ [cell2], meta := { d.meta with updatedAt := s2.now } }
      simpa [hid] using hput
  · intro cid s' hrem
    rw [RemoveDashboardCell_of_ok hf cid] at hrem
    cases hfind : findCellWithIdx d.cells cid with
    | none =>
      rw [hfind] at hrem
      simp [Prod.mk.injEq] at hrem
    | some p =>
      obtain ⟨idx, c0⟩ := p
      rw [hfind] at hrem
      simp only [] at hrem
      cases hkv : kvLoad s.viewKV c0.viewID with
      | none =>
        unfold DeleteView at hrem
        rw [hkv] at hrem
        simp [Prod.mk.injEq] at hrem
      | some v =>
        unfold DeleteView at hrem
        rw [hkv] at hrem
        simp only [Prod.mk.injEq] at hrem
        obtain ⟨hs', -⟩ := hrem
        refine ⟨{ d with cells := d.cells.eraseIdx idx, meta := { d.meta with updatedAt := s.now } },
          ?_, rfl⟩
        rw [← hs']
        have hput := loadDashboard_PutDashboard
          (s := { s with viewKV := kvDelete s.viewKV c0.viewID })
          { d with cells := d.cells.eraseIdx idx, meta := { d.meta with updatedAt := s.now } }
        simpa [hid] using hput
  · intro cid upd s' r hupd
    cases hv : upd.Valid with
    | some e =>
      unfold UpdateDashboardCell at hupd
      rw [hv] at hupd
      simp [Prod.mk.injEq] at hupd
    | none =>
      rw [UpdateDashboardCell_of_ok hf cid upd hv] at hupd
      cases hfind : findCellWithIdx d.cells cid with
      | none =>
        rw [hfind] at hupd
        simp [Prod.mk.injEq] at hupd
      | some p =>
        obtain ⟨idx, c0⟩ := p
        rw [hfind] at hupd
        simp only [Prod.mk.injEq] at hupd
        obtain ⟨hs', -⟩ := hupd
        refine ⟨{ d with cells := d.cells.set idx (upd.Apply c0), meta := { d.meta with updatedAt := s.now } },
          ?_, rfl⟩
        rw [← hs']
        have hput := loadDashboard_PutDashboard
          (s := s) { d with cells := d.cells.set idx (upd.Apply c0), meta := { d.meta with updatedAt := s.now } }
        simpa [hid] using hput
  · intro cs s' hrep
    cases hv : validateReplaceCells (buildCellIds d.cells)
        (OpPfx ++ OpReplaceDashboardCells) cs with
    | some e =>
      rw [ReplaceDashboardCells_of_ok hf, hv] at hrep
      simp [Prod.mk.injEq] at hrep
    | none =>
      rw [ReplaceDashboardCells_of_ok hf, hv] at hrep
      simp only [Prod.mk.injEq] at hrep
      obtain ⟨hs', -⟩ := hrep
      refine ⟨{ d with cells := cs, meta := { d.meta with updatedAt := s.now } }, ?_, rfl⟩
      rw [← hs']
      have hput := loadDashboard_PutDashboard
        (s := s) { d with cells := cs, meta := { d.meta with updatedAt := s.now } }
      simpa [hid] using hput

/-- Witness for C7: `PutDashboardCell` on the sample dashboard leaves
`Meta` at its original value while storing view 70, and a successful
`ReplaceDashboardCells` stamps `UpdatedAt` with the clock value 777. -/
theorem put_cell_meta_asymmetry_witness :
    ((PutDashboardCell sampleSvc 5 ⟨7, 70, 0, 0, 1, 1⟩).2 = none ∧
     loadDashboard (PutDashboardCell sampleSvc 5 ⟨7, 70, 0, 0, 1, 1⟩).1 5 =
       .ok { sampleDash with cells := sampleDash.cells ++ [⟨7, 70, 0, 0, 1, 1⟩] } ∧
     kvLoad (PutDashboardCell sampleSvc 5 ⟨7, 70, 0, 0, 1, 1⟩).1.viewKV 70 = some ⟨70⟩) ∧
    (∃ d', loadDashboard (ReplaceDashboardCells sampleSvc 5 [sampleCellB]).1 5 = .ok d' ∧
      d'.meta.updatedAt = sampleSvc.now) := by
  have h := put_cell_meta_asymmetry sampleSvc 5 ⟨7, 70, 0, 0, 1, 1⟩ sampleDash
    (by decide) (by decide)
  exact ⟨h.1, h.2.2.2.2 [sampleCellB] (ReplaceDashboardCells sampleSvc 5 [sampleCellB]).1
    (by decide)⟩

/-- C4: `Name` returns the empty string with no error for every recognized
kind whose entity type has no name concept (authorizations, tasks, sources)
and every valid id, regardless of store contents; it fails with `EInvalid`
for an invalid id (any kind) or an unrecognized kind (any valid id); and
for named kinds it fails with `ENotFound` when the entity is absent and
returns the entity's name when present. -/
theorem name_resolution (s : Service) (id : Nat) :
    (IDValid id = true →
      Name s AuthorizationsResource id = .ok "" ∧
      Name s TasksResource id = .ok "" ∧
      Name s SourcesResource id = .ok "") ∧
    (IDValid id = false → ∀ r, ∃ e, Name s r id = .error e ∧ ErrorCode e = EInvalid) ∧
    (∀ r, IDValid id = true → r ∉ recognizedResources →
      ∃ e, Name s r id = .error e ∧ ErrorCode e = EInvalid) ∧
    (IDValid id = true →
      (kvLoad s.bucketNames id = none →
        ∃ e, Name s BucketsResource id = .error e ∧ ErrorCode e = ENotFound) ∧
      (∀ n, kvLoad s.bucketNames id = some n → Name s BucketsResource id = .ok n) ∧
      (kvLoad s.orgNames id = none →
        ∃ e, Name s OrgsResource id = .error e ∧ ErrorCode e = ENotFound) ∧
      (∀ n, kvLoad s.orgNames id = some n → Name s OrgsResource id = .ok n) ∧
      (kvLoad s.userNames id = none →
        ∃ e, Name s UsersResource id = .error e ∧ ErrorCode e = ENotFound) ∧
      (∀ n, kvLoad s.userNames id = some n → Name s UsersResource id = .ok n) ∧
      (kvLoad s.telegrafNames id = none →
        ∃ e, Name s TelegrafsResource id = .error e ∧ ErrorCode e = ENotFound) ∧
      (∀ n, kvLoad s.telegrafNames id = some n → Name s TelegrafsResource id = .ok n) ∧
      (kvLoad s.dashboardKV id = none →
        ∃ e, Name s DashboardsResource id = .error e ∧ ErrorCode e = ENotFound) ∧
      (∀ d, kvLoad s.dashboardKV id = some (.dash d) →
        Name s DashboardsResource id = .ok d.name)) := by
  refine ⟨?_, ?_, ?_, ?_⟩
  · intro hval
    refine ⟨?_, ?_, ?_⟩ <;>
      simp [Name, hval, AuthorizationsResource, TasksResource, SourcesResource]
  · intro hinv r
    refine ⟨.perr EInvalid "id provided is invalid" "" none, ?_,
      ErrorCode_code (by decide)⟩
    simp [Name, hinv]
  · intro r hval hr
    simp only [recognizedResources, AuthorizationsResource, BucketsResource,
      DashboardsResource, OrgsResource, SourcesResource, TasksResource,
      TelegrafsResource, UsersResource, List.mem_cons, List.mem_singleton,
      not_or] at hr
    obtain ⟨h1, h2, h3, h4, h5, h6, h7, h8⟩ := hr
    refine ⟨.perr EInvalid "unknown resource" "" none, ?_, ErrorCode_code (by decide)⟩
    simp [Name, hval, AuthorizationsResource, BucketsResource, DashboardsResource,
      OrgsResource, SourcesResource, TasksResource, TelegrafsResource, UsersResource,
      h1, h2, h3, h4, h5, h6, h7, h8]
  · intro hval
    refine ⟨?_, ?_, ?_, ?_, ?_, ?_, ?_, ?_, ?_, ?_⟩
    · intro h
      refine ⟨.perr ENotFound "bucket not found" "" none, ?_, ErrorCode_code (by decide)⟩
      simp [Name, hval, AuthorizationsResource, TasksResource, SourcesResource,
        BucketsResource, h]
    · intro n h
      simp [Name, hval, AuthorizationsResource, TasksResource, SourcesResource,
        BucketsResource, h]
    · intro h
      refine ⟨.perr ENotFound "organization not found" "" none, ?_,
        ErrorCode_code (by decide)⟩
      simp [Name, hval, AuthorizationsResource, TasksResource, SourcesResource,
        BucketsResource, DashboardsResource, OrgsResource, h]
    · intro n h
      simp [Name, hval, AuthorizationsResource, TasksResource, SourcesResource,
        BucketsResource, DashboardsResource, OrgsResource, h]
    · intro h
      refine ⟨.perr ENotFound "user not found" "" none, ?_, ErrorCode_code (by decide)⟩
      simp [Name, hval, AuthorizationsResource, TasksResource, SourcesResource,
        BucketsResource, DashboardsResource, OrgsResource, TelegrafsResource,
        UsersResource, h]
    · intro n h
      simp [Name, hval, AuthorizationsResource, TasksResource, SourcesResource,
        BucketsResource, DashboardsResource, OrgsResource, TelegrafsResource,
        UsersResource, h]
    · intro h
      refine ⟨.perr ENotFound "telegraf configuration not found" "" none, ?_,
        ErrorCode_code (by decide)⟩
      simp [Name, hval, AuthorizationsResource, TasksResource, SourcesResource,
        BucketsResource, DashboardsResource, OrgsResource, TelegrafsResource, h]
    · intro n h
      simp [Name, hval, AuthorizationsResource, TasksResource, SourcesResource,
        BucketsResource, DashboardsResource, OrgsResource, TelegrafsResource, h]
    · intro h
      have hf := FindDashboardByID_of_error (loadDashboard_of_none h)
      refine ⟨.perr "" "" (OpPfx ++ OpFindDashboardByID)
        (some (.perr ENotFound ErrDashboardNotFound "" none)), ?_, ?_⟩
      · simp [Name, hval, AuthorizationsResource, TasksResource, SourcesResource,
          BucketsResource, DashboardsResource, hf]
      · rw [ErrorCode_wrap]
        exact ErrorCode_code (by decide)
    · intro d h
      have hf := FindDashboardByID_of_ok (loadDashboard_of_dash h)
      simp [Name, hval, AuthorizationsResource, TasksResource, SourcesResource,
        BucketsResource, DashboardsResource, hf]

/-- Witness for C4: on the sample store, the nameless authorizations kind
yields the empty string, bucket 1 and dashboard 5 resolve to their names,
an absent dashboard yields `ENotFound`, an unrecognized kind yields
`EInvalid`, and the invalid id 0 yields `EInvalid`. -/
theorem name_resolution_witness :
    Name sampleSvc AuthorizationsResource 1 = .ok "" ∧
    Name sampleSvc BucketsResource 1 = .ok "b1" ∧
    Name sampleSvc DashboardsResource 5 = .ok "dash1" ∧
    (∃ e, Name sampleSvc DashboardsResource 1 = .error e ∧ ErrorCode e = ENotFound) ∧
    (∃ e, Name sampleSvc "widgets" 1 = .error e ∧ ErrorCode e = EInvalid) ∧
    (∃ e, Name sampleSvc DashboardsResource 0 = .error e ∧ ErrorCode e = EInvalid) := by
  refine ⟨?_, ?_, ?_, ?_, ?_, ?_⟩
  · exact ((name_resolution sampleSvc 1).1 (by decide)).1
  · exact ((name_resolution sampleSvc 1).2.2.2 (by decide)).2.1 "b1" (by decide)
  · exact ((name_resolution sampleSvc 5).2.2.2 (by decide)).2.2.2.2.2.2.2.2.2
      sampleDash (by decide)
  · exact ((name_resolution sampleSvc 1).2.2.2 (by decide)).2.2.2.2.2.2.2.2.1 (by decide)
  · exact (name_resolution sampleSvc 1).2.2.1 "widgets" (by decide) (by decide)
  · exact (name_resolution sampleSvc 0).2.1 (by decide) DashboardsResource

end Influx
